import Mathlib

/-!
Verification of the Milliman FastAPI/FastMCP service against its
natural-language specification.

The development shallowly embeds the request-transformation and
upstream-calling logic of the repository:

* `invoke_router.py` — the `PersonRequest` pydantic model and its
  validators, `generate_request_id`, `get_access_token_sync`,
  `transform_to_mcid_format`, `transform_to_medical_format`,
  `async_mcid_search`, and `async_submit_medical_request` (the
  authorization-header fallback loop).
* `milliman_mcp_server.py` (the embedded `server.py` variant) —
  `get_token`, `mcid_search`, `medical_submit` and `call_all`.

HTTP exchanges are modelled by passing the responses the network would
deliver as explicit arguments: a value of type `Except String r` is
either the successful delivery of a response `r` or a transport-level
exception carrying its message.  Functions that may issue several
requests take an oracle `Nat → Except String r` giving the response to
the i-th request issued, and return alongside their result the list of
request indices actually attempted, so that statements about attempt
order and early exit can be made.
-/

namespace Milliman

/-- The canonical person record accepted by the service
(`PersonRequest` in `invoke_router.py`). -/
structure PersonRequest where
  firstName : String
  lastName : String
  ssn : String
  dateOfBirth : String
  gender : String
  zipCodes : List String
  deriving Repr, DecidableEq

/-- Python `str.upper()` modelled character-wise (`Char.toUpper` is the
ASCII case mapping, which covers the gender values in play). -/
def strUpper (s : String) : String :=
  ⟨s.data.map Char.toUpper⟩

/-- `PersonRequest.validate_gender` (invoke_router.py lines 34-38):
`if v.upper() not in ["M", "F"]: return v` else `return v.upper()` —
uppercase the value when its uppercase form is M or F, otherwise pass
it through unchanged. -/
def validate_gender (v : String) : String :=
  if strUpper v = "M" ∨ strUpper v = "F" then strUpper v else v

/-- `PersonRequest.validate_zip_codes` (invoke_router.py lines 40-44):
an empty list is replaced by the sentinel `["00000"]`; otherwise each
element is passed through `str` (the identity on strings). -/
def validate_zip_codes (v : List String) : List String :=
  if v.isEmpty then ["00000"] else v.map (fun z => z)

/-- Pydantic model construction for `PersonRequest`: the model config
sets `str_strip_whitespace = True`, so every string value is trimmed
before the field validators run; then `validate_gender` and
`validate_zip_codes` are applied to their fields. -/
def normalizePerson (p : PersonRequest) : PersonRequest :=
  { firstName := p.firstName.trim
    lastName := p.lastName.trim
    ssn := p.ssn.trim
    dateOfBirth := p.dateOfBirth.trim
    gender := validate_gender p.gender.trim
    zipCodes := validate_zip_codes (p.zipCodes.map (fun z => z.trim)) }

/-- `generate_request_id` (invoke_router.py lines 56-58):
`str(int(time.time() * 1000))`.  The current wall-clock time in
milliseconds is passed in explicitly as `nowMs`. -/
def generate_request_id (nowMs : Nat) : String :=
  toString nowMs

/-- Python `s.replace("-", "")` with a one-character pattern and empty
replacement removes every occurrence of that character. -/
def removeDashes (s : String) : String :=
  ⟨s.data.filter (fun c => c ≠ '-')⟩

/-- `processStatus` object of the MCID request body. -/
structure ProcessStatus where
  completed : String
  isMemput : String
  errorCode : Option String
  errorText : Option String
  deriving Repr, DecidableEq

/-- One entry of the `addressList` of an MCID consumer. -/
structure McidAddress where
  type : String
  zip : Option String
  deriving Repr, DecidableEq

/-- The `id` object of an MCID consumer. -/
structure McidId where
  ssn : String
  deriving Repr, DecidableEq

/-- One entry of the `consumer` list of the MCID request body. -/
structure McidConsumer where
  firstName : String
  lastName : String
  middleName : Option String
  sex : String
  dob : String
  addressList : List McidAddress
  id : McidId
  deriving Repr, DecidableEq

/-- The `searchSetting` object of the MCID request body. -/
structure SearchSetting where
  minScore : String
  maxResult : String
  deriving Repr, DecidableEq

/-- The MCID search request body built by `transform_to_mcid_format`. -/
structure McidRequest where
  requestID : String
  processStatus : ProcessStatus
  consumer : List McidConsumer
  searchSetting : SearchSetting
  deriving Repr, DecidableEq

/-- `transform_to_mcid_format` (invoke_router.py lines 69-104).
`dob_formatted = person_data.dateOfBirth.replace("-", "")`; the zip is
`person_data.zipCodes[0] if person_data.zipCodes else None`; the
request id comes from `generate_request_id()` (wall clock `nowMs`). -/
def transform_to_mcid_format (p : PersonRequest) (nowMs : Nat) : McidRequest :=
  let dob_formatted := removeDashes p.dateOfBirth
  { requestID := generate_request_id nowMs
    processStatus := { completed := "false", isMemput := "false",
                       errorCode := none, errorText := none }
    consumer := [{ firstName := p.firstName
                   lastName := p.lastName
                   middleName := none
                   sex := p.gender
                   dob := dob_formatted
                   addressList := [{ type := "P",
                                     zip := if p.zipCodes.isEmpty then none
                                            else some (p.zipCodes.headD "") }]
                   id := { ssn := p.ssn } }]
    searchSetting := { minScore := "100", maxResult := "1" } }

/-- The medical request body built by `transform_to_medical_format`. -/
structure MedicalRequest where
  requestID : String
  firstName : String
  lastName : String
  ssn : String
  dateOfBirth : String
  gender : String
  zipCodes : List String
  callerId : String
  middleName : String
  addressLine1 : String
  addressLine2 : String
  city : String
  state : String
  country : String
  phoneNumber : String
  email : String
  deriving Repr, DecidableEq

/-- `transform_to_medical_format` (invoke_router.py lines 106-126):
flattens the person fields, appends the fixed caller id
`"Milliman-Test16"`, and fills the optional contact fields with empty
strings except `country`, which the source sets to `"US"`. -/
def transform_to_medical_format (p : PersonRequest) (nowMs : Nat) : MedicalRequest :=
  { requestID := generate_request_id nowMs
    firstName := p.firstName
    lastName := p.lastName
    ssn := p.ssn
    dateOfBirth := p.dateOfBirth
    gender := p.gender
    zipCodes := p.zipCodes
    callerId := "Milliman-Test16"
    middleName := ""
    addressLine1 := ""
    addressLine2 := ""
    city := ""
    state := ""
    country := "US"
    phoneNumber := ""
    email := "" }

/-! ### HTTP response model -/

/-- A response of the OAuth2 token endpoint.  `json` is `some kvs`
exactly when the body parses as a JSON object (modelled as a
string-to-string association list, enough to look up `access_token`);
`none` models a non-JSON body, on which `.json()` raises. -/
structure TokenResp where
  status : Nat
  json : Option (List (String × String))
  deriving Repr, DecidableEq

/-- A generic upstream HTTP response.  `content` is the raw body text
(the empty string models an empty body, Python falsy `response.content`);
`jsonParse` is `some doc` exactly when the body parses as JSON, `doc`
abstracting the parsed document. -/
structure HttpResp where
  status : Nat
  content : String
  jsonParse : Option String
  deriving Repr, DecidableEq

/-- The response-body handling repeated in `invoke_router.py`
(e.g. lines 239-247): empty content yields the string `"No content"`,
a JSON body yields the parsed document, and a `JSONDecodeError` falls
back to the raw response text.  (The final broad `except` that yields
`"Unable to parse response"` guards failures other than JSON decoding
and is unreachable in this model.) -/
inductive RespBody where
  | jsonData (doc : String)
  | textData (s : String)
  deriving Repr, DecidableEq

/-- Parse a response body as `invoke_router.py` does. -/
def parseBody (r : HttpResp) : RespBody :=
  if r.content = "" then .textData "No content"
  else
    match r.jsonParse with
    | some doc => .jsonData doc
    | none => .textData r.content

/-! ### Token fetch (`get_access_token_sync`, invoke_router.py lines 60-67) -/

/-- `get_access_token_sync` issues exactly one POST to the token
endpoint; `rs n` is the response the network would deliver to the
(n+1)-th request the function issued, so a faithful embedding consults
only `rs 0`.  `response.raise_for_status()` raises exactly on a 4xx or
5xx status, `.json()` raises on a non-JSON body, and `.get` returns
`None` for a missing key; every raised exception is caught and turned
into `None`. -/
def get_access_token_sync (rs : Nat → Except String TokenResp) : Option String :=
  match rs 0 with
  | .error _ => none
  | .ok r =>
    if 400 ≤ r.status ∧ r.status < 600 then none
    else r.json.bind (fun kvs => kvs.lookup "access_token")

/-- Python string truthiness applied to the optional token: `None` and
the empty string are falsy (`if not access_token:`). -/
def tokenTruthy : Option String → Bool
  | none => false
  | some s => !(s == "")

/-! ### MCID search (`async_mcid_search`, invoke_router.py lines 150-187) -/

/-- The envelope returned by `async_mcid_search` (and, with the extra
attempt bookkeeping, by `async_submit_medical_request`).  The Python
dicts omit absent keys; absent keys are modelled as `none`. -/
structure McidEnvelope where
  success : Bool
  status_code : Nat
  data : Option RespBody
  error : Option String
  request_id : String
  deriving Repr, DecidableEq

/-- `async_mcid_search`: builds the MCID payload from the person, posts
it once (`resp` being the delivered response or the transport
exception), and wraps the outcome.  A delivered response — whatever its
status — becomes a normal envelope with `success = (status == 200)`;
only a transport exception takes the error path, with a synthetic
status 500. -/
def async_mcid_search (p : PersonRequest) (nowMs : Nat)
    (resp : Except String HttpResp) : McidEnvelope :=
  let mcid_payload := transform_to_mcid_format p nowMs
  match resp with
  | .ok r =>
    { success := r.status == 200
      status_code := r.status
      data := some (parseBody r)
      error := none
      request_id := mcid_payload.requestID }
  | .error e =>
    { success := false
      status_code := 500
      data := none
      error := some e
      request_id := mcid_payload.requestID }

/-! ### Medical submit (`async_submit_medical_request`,
invoke_router.py lines 189-281) -/

/-- The result dict of `async_submit_medical_request`.  The diagnostic
`auth_format`, `response_headers` and `request_headers` fields are
presentation-only string munging over the same data and are not
modelled; keys absent from a given Python return are `none` / `0` /
`false` here. -/
structure MedicalResult where
  success : Bool
  status_code : Nat
  data : Option RespBody
  error : Option String
  request_id : String
  auth_attempt : Nat
  all_attempts_failed : Bool
  final_error : Option String
  deriving Repr, DecidableEq

/-- The fixed, ordered `auth_attempts` list of header sets
(invoke_router.py lines 203-232), instantiated at the fetched token. -/
def auth_attempts (t : String) : List (List (String × String)) :=
  [ [("Authorization", "Bearer " ++ t), ("Content-Type", "application/json"),
     ("Accept", "application/json"), ("X-API-Version", "1.0"),
     ("User-Agent", "Milliman-Client/1.0")],
    [("Authorization", t), ("Content-Type", "application/json"),
     ("Accept", "application/json"), ("X-API-Version", "1.0"),
     ("User-Agent", "Milliman-Client/1.0")],
    [("Authorization", "Token " ++ t), ("Content-Type", "application/json"),
     ("Accept", "application/json"), ("X-API-Version", "1.0"),
     ("User-Agent", "Milliman-Client/1.0")],
    [("Authorization", "Bearer " ++ t), ("Content-Type", "application/json"),
     ("Accept", "application/json"), ("X-Requested-With", "XMLHttpRequest"),
     ("Cache-Control", "no-cache")] ]

/-- The `for i, headers in enumerate(auth_attempts)` loop of
`async_submit_medical_request`.  `oracle i` is the response delivered
to the POST of attempt `i`; `total` is the length of the full attempt
list (used in the `final_error` message).  Returns the Python return
value (`none` models falling off an empty loop, which returns `None`)
together with the list of attempt indices actually issued, in order:
a 200 status returns immediately; a non-200 status on the last attempt
returns that result flagged `all_attempts_failed`; a transport
exception returns an error result if on the last attempt and otherwise
continues. -/
def medicalAttemptLoop (oracle : Nat → Except String HttpResp) (reqId : String)
    (total : Nat) : Nat → List (List (String × String)) →
    Option MedicalResult × List Nat
  | _, [] => (none, [])
  | i, _hs :: rest =>
    match oracle i with
    | .ok resp =>
      if resp.status = 200 then
        (some { success := true, status_code := resp.status,
                data := some (parseBody resp), error := none,
                request_id := reqId, auth_attempt := i + 1,
                all_attempts_failed := false, final_error := none }, [i])
      else if rest.isEmpty then
        (some { success := false, status_code := resp.status,
                data := some (parseBody resp), error := none,
                request_id := reqId, auth_attempt := i + 1,
                all_attempts_failed := true,
                final_error := some ("All " ++ toString total ++
                  " authorization attempts failed. Last status: " ++
                  toString resp.status) }, [i])
      else
        let res := medicalAttemptLoop oracle reqId total (i + 1) rest
        (res.1, i :: res.2)
    | .error e =>
      if rest.isEmpty then
        (some { success := false, status_code := 500,
                data := none, error := some e,
                request_id := reqId, auth_attempt := i + 1,
                all_attempts_failed := true, final_error := none }, [i])
      else
        let res := medicalAttemptLoop oracle reqId total (i + 1) rest
        (res.1, i :: res.2)

/-- `async_submit_medical_request`: first fetches a token with
`get_access_token_sync` (`tokenRs` being its response oracle); a falsy
token returns the 500 envelope with error `"Access token not found"`
with no medical POST issued; otherwise the medical payload is built and
the `auth_attempts` loop runs against `oracle`.  Returns the result
together with the list of medical-POST attempt indices issued. -/
def async_submit_medical_request (tokenRs : Nat → Except String TokenResp)
    (oracle : Nat → Except String HttpResp) (p : PersonRequest) (nowMs : Nat) :
    Option MedicalResult × List Nat :=
  match get_access_token_sync tokenRs with
  | none =>
    (some { success := false, status_code := 500, data := none,
            error := some "Access token not found", request_id := "",
            auth_attempt := 0, all_attempts_failed := false,
            final_error := none }, [])
  | some t =>
    if t = "" then
      (some { success := false, status_code := 500, data := none,
              error := some "Access token not found", request_id := "",
              auth_attempt := 0, all_attempts_failed := false,
              final_error := none }, [])
    else
      let medical_payload := transform_to_medical_format p nowMs
      medicalAttemptLoop oracle medical_payload.requestID
        (auth_attempts t).length 0 (auth_attempts t)

/-! ### The `server.py` variant embedded in `milliman_mcp_server.py`
(tools `get_token`, `mcid_search`, `medical_submit`, `call_all`).
These tools raise exceptions instead of returning error dicts; a raised
exception is modelled as `Except.error` carrying its message and
propagates through `call_all`, which has no handler of its own. -/

/-- The `{"status_code": ..., "body": ...}` dict returned by the
`mcid_search` and `medical_submit` tools of `server.py`. -/
structure SvEnvelope where
  status_code : Nat
  body : String
  deriving Repr, DecidableEq

/-- `server.py` tool `get_token` (milliman_mcp_server.py lines 36-41):
posts once to the token endpoint, `raise_for_status()` (raises exactly
on 4xx/5xx), parses the JSON body (raising on a non-JSON body) and
returns `{"access_token": data.get("access_token")}` — modelled as the
optional token value. -/
def get_token (rs : Except String TokenResp) : Except String (Option String) :=
  match rs with
  | .error e => .error e
  | .ok r =>
    if 400 ≤ r.status ∧ r.status < 600 then
      .error ("HTTP status error " ++ toString r.status)
    else
      match r.json with
      | none => .error "JSONDecodeError"
      | some kvs => .ok (kvs.lookup "access_token")

/-- `server.py` tool `mcid_search` (milliman_mcp_server.py lines 44-49):
posts the given body once and returns
`{"status_code": resp.status_code, "body": resp.json()}`; `resp.json()`
raises on a non-JSON body, and that exception propagates. -/
def mcid_search (rs : Except String HttpResp) : Except String SvEnvelope :=
  match rs with
  | .error e => .error e
  | .ok r =>
    match r.jsonParse with
    | none => .error "JSONDecodeError"
    | some doc => .ok { status_code := r.status, body := doc }

/-- `server.py` tool `medical_submit` (milliman_mcp_server.py lines
52-65): fetches a token via `get_token` (its exceptions propagate),
raises `"Failed to obtain access token"` on a falsy token, posts the
body once, raises `"Medical request failed: <text>"` on a non-200
status, and otherwise returns the status and parsed JSON body
(`resp.json()` raising on a non-JSON body). -/
def medical_submit (tokenRs : Except String TokenResp)
    (medRs : Except String HttpResp) : Except String SvEnvelope :=
  match get_token tokenRs with
  | .error e => .error e
  | .ok tok =>
    if tokenTruthy tok then
      match medRs with
      | .error e => .error e
      | .ok r =>
        if r.status ≠ 200 then
          .error ("Medical request failed: " ++ r.content)
        else
          match r.jsonParse with
          | none => .error "JSONDecodeError"
          | some doc => .ok { status_code := r.status, body := doc }
    else
      .error "Failed to obtain access token"

/-- The combined `{"get_token": ..., "mcid_search": ...,
"medical_submit": ...}` dict returned by `call_all`. -/
structure CallAllResult where
  get_token_res : Option String
  mcid_search_res : SvEnvelope
  medical_submit_res : SvEnvelope
  deriving Repr, DecidableEq

/-- `server.py` tool `call_all` (milliman_mcp_server.py lines 68-72):
awaits `get_token`, `mcid_search` and `medical_submit` in sequence with
no exception handler, so the first exception raised by a sub-call
propagates and aborts the combined operation.  `medical_submit`
re-fetches its own token, hence the second token response `tokenRs2`. -/
def call_all (tokenRs1 : Except String TokenResp)
    (mcidRs : Except String HttpResp)
    (tokenRs2 : Except String TokenResp)
    (medRs : Except String HttpResp) : Except String CallAllResult :=
  match get_token tokenRs1 with
  | .error e => .error e
  | .ok t =>
    match mcid_search mcidRs with
    | .error e => .error e
    | .ok m =>
      match medical_submit tokenRs2 medRs with
      | .error e => .error e
      | .ok d =>
        .ok { get_token_res := t, mcid_search_res := m,
              medical_submit_res := d }

/-- `Except` success test (decidable, used to state when a sub-call of
`call_all` succeeded without naming its value). -/
def isOkB {α : Type} : Except String α → Bool
  | .ok _ => true
  | .error _ => false

/-! ### Concrete sample values used by witnesses and counterexamples -/

/-- The end-to-end sample person of the specification. -/
def sampleJane : PersonRequest :=
  { firstName := "JANE", lastName := "DOE", ssn := "123456789",
    dateOfBirth := "1985-10-10", gender := "F", zipCodes := ["23060"] }

/-- The sample person with an empty `zipCodes` list. -/
def sampleEmptyZip : PersonRequest :=
  { firstName := "JANE", lastName := "DOE", ssn := "123456789",
    dateOfBirth := "1985-10-10", gender := "f", zipCodes := [] }

/-- A token endpoint that always answers 200 with a usable token. -/
def tokenRsOk : Nat → Except String TokenResp :=
  fun _ => .ok { status := 200, json := some [("access_token", "tok")] }

/-- A medical endpoint that rejects the first attempt with 403 and
accepts every later attempt with 200. -/
def medOracle : Nat → Except String HttpResp :=
  fun n => if n = 0 then .ok { status := 403, content := "forbidden", jsonParse := none }
           else .ok { status := 200, content := "okbody", jsonParse := some "okdoc" }

/-- A delivered token-endpoint response: status 200, usable token. -/
def tokenRespOk : TokenResp := { status := 200, json := some [("access_token", "tok")] }

/-- A delivered MCID response: status 200, JSON body. -/
def mcidRespOk : HttpResp := { status := 200, content := "mbody", jsonParse := some "mdoc" }

/-- A delivered medical response with status 403. -/
def medResp403 : HttpResp := { status := 403, content := "denied", jsonParse := some "errdoc" }

/-- A delivered medical response with status 200. -/
def medRespOk : HttpResp := { status := 200, content := "dbody", jsonParse := some "ddoc" }

/-! ## Helper lemmas -/

/-- `validate_zip_codes` never returns the empty list. -/
theorem validate_zip_codes_ne_nil (v : List String) : validate_zip_codes v ≠ [] := by
  unfold validate_zip_codes
  split
  · simp
  · next h =>
    cases v with
    | nil => simp at h
    | cons a t => simp

/-- The normalized zip list is nonempty, as a `Bool` fact about
`List.isEmpty` (the shape `transform_to_mcid_format` branches on). -/
theorem normalizePerson_zip_isEmpty_false (p : PersonRequest) :
    (normalizePerson p).zipCodes.isEmpty = false := by
  have h := validate_zip_codes_ne_nil (p.zipCodes.map (fun z => z.trim))
  simp only [normalizePerson]
  cases hz : validate_zip_codes (p.zipCodes.map (fun z => z.trim)) with
  | nil => exact absurd hz h
  | cons a t => rfl

/-- Unfolding of `get_access_token_sync` on a delivered response. -/
theorem get_access_token_sync_ok (rs : Nat → Except String TokenResp)
    (r : TokenResp) (h : rs 0 = .ok r) :
    get_access_token_sync rs =
      if 400 ≤ r.status ∧ r.status < 600 then none
      else r.json.bind (fun kvs => kvs.lookup "access_token") := by
  unfold get_access_token_sync
  rw [h]

/-- Unfolding of `get_access_token_sync` on a transport exception. -/
theorem get_access_token_sync_error (rs : Nat → Except String TokenResp)
    (e : String) (h : rs 0 = .error e) :
    get_access_token_sync rs = none := by
  unfold get_access_token_sync
  rw [h]

/-- A falsy token short-circuits `async_submit_medical_request` into the
500 envelope with no medical POST issued. -/
theorem submit_token_fail (tokenRs : Nat → Except String TokenResp)
    (oracle : Nat → Except String HttpResp) (p : PersonRequest) (nowMs : Nat)
    (h : tokenTruthy (get_access_token_sync tokenRs) = false) :
    async_submit_medical_request tokenRs oracle p nowMs =
      (some { success := false, status_code := 500, data := none,
              error := some "Access token not found", request_id := "",
              auth_attempt := 0, all_attempts_failed := false,
              final_error := none }, []) := by
  unfold async_submit_medical_request
  cases htok : get_access_token_sync tokenRs with
  | none => rfl
  | some t =>
    rw [htok] at h
    simp only [tokenTruthy, Bool.not_eq_false', beq_iff_eq] at h
    simp [h]

/-! ## Claim theorems -/

/-- Claim C5: a `PersonRecord` whose `zipCodes` list is empty has its
zip list normalized to exactly `["00000"]`, and consequently the
normalized zip list of every `PersonRecord` is non-empty. -/
theorem claim5_zip_default :
    (∀ p : PersonRequest, p.zipCodes = [] →
       (normalizePerson p).zipCodes = ["00000"]) ∧
    (∀ p : PersonRequest, (normalizePerson p).zipCodes ≠ []) := by
  constructor
  · intro p hp
    simp [normalizePerson, hp, validate_zip_codes]
  · intro p
    show validate_zip_codes (p.zipCodes.map (fun z => z.trim)) ≠ []
    exact validate_zip_codes_ne_nil (p.zipCodes.map (fun z => z.trim))

/-- Witness for C5 at the sample person with empty zip codes. -/
theorem claim5_zip_default_witness :
    (normalizePerson sampleEmptyZip).zipCodes = ["00000"] :=
  claim5_zip_default.1 sampleEmptyZip rfl

/-- Claim C8: `validate_gender` maps a gender string to uppercase when
its uppercase form is M or F and passes any other value through
unchanged; in particular `"f"` normalizes to `"F"`. -/
theorem claim8_gender_normalization :
    (∀ g : String, (strUpper g = "M" ∨ strUpper g = "F") →
       validate_gender g = strUpper g) ∧
    (∀ g : String, strUpper g ≠ "M" → strUpper g ≠ "F" → validate_gender g = g) ∧
    validate_gender "f" = "F" := by
  refine ⟨?_, ?_, ?_⟩
  · intro g hg
    simp [validate_gender, hg]
  · intro g h1 h2
    simp [validate_gender, h1, h2]
  · decide

/-- Witness for C8 at the concrete inputs `"m"` and `"x"`. -/
theorem claim8_gender_normalization_witness :
    validate_gender "m" = "M" ∧ validate_gender "x" = "x" :=
  ⟨claim8_gender_normalization.1 "m" (Or.inl (by decide)),
   claim8_gender_normalization.2.1 "x" (by decide) (by decide)⟩

/-- Claim C4: for every (normalized) `PersonRecord`,
`transform_to_mcid_format` produces exactly one consumer entry whose
`dob` is the `dateOfBirth` with every dash removed (hence dash-free)
and whose single address carries `zipCodes[0]` as its zip; and the
output is unchanged by any change to the remaining zip codes (they are
dropped). -/
theorem claim4_mcid_transform (p : PersonRequest) (nowMs : Nat) :
    (transform_to_mcid_format (normalizePerson p) nowMs).consumer.length = 1 ∧
    (transform_to_mcid_format (normalizePerson p) nowMs).consumer =
      [{ firstName := (normalizePerson p).firstName
         lastName := (normalizePerson p).lastName
         middleName := none
         sex := (normalizePerson p).gender
         dob := removeDashes (normalizePerson p).dateOfBirth
         addressList := [{ type := "P",
                           zip := some ((normalizePerson p).zipCodes.headD "") }]
         id := { ssn := (normalizePerson p).ssn } }] ∧
    ('-' ∉ (removeDashes (normalizePerson p).dateOfBirth).data) ∧
    (∀ z : String, ∀ t₁ t₂ : List String,
       transform_to_mcid_format { p with zipCodes := z :: t₁ } nowMs =
       transform_to_mcid_format { p with zipCodes := z :: t₂ } nowMs) := by
  refine ⟨rfl, ?_, ?_, ?_⟩
  · simp [transform_to_mcid_format, normalizePerson_zip_isEmpty_false p]
  · simp [removeDashes, List.mem_filter]
  · intro z t₁ t₂
    simp [transform_to_mcid_format]

/-- Witness for C4 at the end-to-end sample person: one consumer entry
and a dash-free dob. -/
theorem claim4_mcid_transform_witness :
    (transform_to_mcid_format (normalizePerson sampleJane) 3).consumer.length = 1 ∧
    ('-' ∉ (removeDashes (normalizePerson sampleJane).dateOfBirth).data) :=
  ⟨(claim4_mcid_transform sampleJane 3).1,
   (claim4_mcid_transform sampleJane 3).2.2.1⟩

/-- Counterexample to claim C6 as stated: the `country` contact field
is not defaulted to the empty string — `transform_to_medical_format`
sets it to `"US"`. -/
theorem claim6_counterexample :
    (transform_to_medical_format sampleJane 0).country ≠ "" := by
  decide

/-- Claim C6 (amended): `transform_to_medical_format` flattens the
person fields, appends the fixed caller id `"Milliman-Test16"`, and
defaults the optional contact fields to the empty string — except
`country`, which defaults to `"US"`. -/
theorem claim6_medical_transform (p : PersonRequest) (nowMs : Nat) :
    (transform_to_medical_format p nowMs).requestID = generate_request_id nowMs ∧
    (transform_to_medical_format p nowMs).firstName = p.firstName ∧
    (transform_to_medical_format p nowMs).lastName = p.lastName ∧
    (transform_to_medical_format p nowMs).ssn = p.ssn ∧
    (transform_to_medical_format p nowMs).dateOfBirth = p.dateOfBirth ∧
    (transform_to_medical_format p nowMs).gender = p.gender ∧
    (transform_to_medical_format p nowMs).zipCodes = p.zipCodes ∧
    (transform_to_medical_format p nowMs).callerId = "Milliman-Test16" ∧
    (transform_to_medical_format p nowMs).middleName = "" ∧
    (transform_to_medical_format p nowMs).addressLine1 = "" ∧
    (transform_to_medical_format p nowMs).addressLine2 = "" ∧
    (transform_to_medical_format p nowMs).city = "" ∧
    (transform_to_medical_format p nowMs).state = "" ∧
    (transform_to_medical_format p nowMs).country = "US" ∧
    (transform_to_medical_format p nowMs).phoneNumber = "" ∧
    (transform_to_medical_format p nowMs).email = "" :=
  ⟨rfl, rfl, rfl, rfl, rfl, rfl, rfl, rfl, rfl, rfl, rfl, rfl, rfl, rfl, rfl, rfl⟩

/-- Claim C3: `async_mcid_search` wraps every delivered upstream
response — whatever its status, 400 included — in a normal envelope
(`error = none`) carrying that status, with `success` true exactly at
status 200; only a transport exception takes the error path, and that
error carries the synthetic status 500. -/
theorem claim3_mcid_envelope (p : PersonRequest) (nowMs : Nat) :
    (∀ r : HttpResp,
       (async_mcid_search p nowMs (.ok r)).error = none ∧
       (async_mcid_search p nowMs (.ok r)).status_code = r.status ∧
       (async_mcid_search p nowMs (.ok r)).success = (r.status == 200)) ∧
    (∀ e : String,
       (async_mcid_search p nowMs (.error e)).error = some e ∧
       (async_mcid_search p nowMs (.error e)).status_code = 500 ∧
       (async_mcid_search p nowMs (.error e)).success = false) := by
  constructor
  · intro r
    exact ⟨rfl, rfl, rfl⟩
  · intro e
    exact ⟨rfl, rfl, rfl⟩

/-- Claim C2: when the token fetch inside
`async_submit_medical_request` yields no usable token, the operation
returns the error envelope with status 500 and message
"Access token not found", and issues no POST to the medical endpoint
(the attempt list is empty). -/
theorem claim2_token_failure_short_circuit
    (tokenRs : Nat → Except String TokenResp)
    (oracle : Nat → Except String HttpResp) (p : PersonRequest) (nowMs : Nat)
    (h : tokenTruthy (get_access_token_sync tokenRs) = false) :
    async_submit_medical_request tokenRs oracle p nowMs =
      (some { success := false, status_code := 500, data := none,
              error := some "Access token not found", request_id := "",
              auth_attempt := 0, all_attempts_failed := false,
              final_error := none }, []) :=
  submit_token_fail tokenRs oracle p nowMs h

/-- Witness for C2: a mocked token endpoint answering 401 makes the
medical submit return the 500 envelope with no medical POST. -/
theorem claim2_token_failure_short_circuit_witness :
    async_submit_medical_request
      (fun _ => .ok { status := 401, json := some [("access_token", "tok")] })
      (fun _ => .error "transport never used") sampleJane 0 =
      (some { success := false, status_code := 500, data := none,
              error := some "Access token not found", request_id := "",
              auth_attempt := 0, all_attempts_failed := false,
              final_error := none }, []) :=
  claim2_token_failure_short_circuit
    (fun _ => .ok { status := 401, json := some [("access_token", "tok")] })
    (fun _ => .error "transport never used") sampleJane 0 (by decide)

/-- Counterexample to claim C7 as stated: `get_access_token_sync`
succeeds (yields a usable token) on a response whose status is 201,
not 200 — `raise_for_status()` raises only on 4xx/5xx, so success is
not "exactly when the token endpoint returns HTTP 200". -/
theorem claim7_counterexample :
    tokenTruthy (get_access_token_sync
      (fun _ => .ok { status := 201, json := some [("access_token", "tok")] }))
      = true ∧ (201 : Nat) ≠ 200 := by
  constructor
  · decide
  · decide

/-- Claim C7 (amended): `get_access_token_sync` yields a usable token
exactly when the single response it receives has a non-4xx/5xx status
(HTTP 200 in the normal case) and a JSON body whose `access_token`
field is present and non-empty; the fetch consults only its first
(unique) request, never retrying; and a failed fetch is surfaced by the
medical-submit caller as the single synthetic-500 error envelope with
message "Access token not found". -/
theorem claim7_token_fetch (rs : Nat → Except String TokenResp) :
    (tokenTruthy (get_access_token_sync rs) = true ↔
      ∃ r : TokenResp, rs 0 = .ok r ∧ ¬(400 ≤ r.status ∧ r.status < 600) ∧
        ∃ kvs, r.json = some kvs ∧
          ∃ t, kvs.lookup "access_token" = some t ∧ t ≠ "") ∧
    (∀ rs₂ : Nat → Except String TokenResp, rs 0 = rs₂ 0 →
       get_access_token_sync rs = get_access_token_sync rs₂) ∧
    (∀ (oracle : Nat → Except String HttpResp) (p : PersonRequest) (nowMs : Nat),
       tokenTruthy (get_access_token_sync rs) = false →
       async_submit_medical_request rs oracle p nowMs =
         (some { success := false, status_code := 500, data := none,
                 error := some "Access token not found", request_id := "",
                 auth_attempt := 0, all_attempts_failed := false,
                 final_error := none }, [])) := by
  refine ⟨?_, ?_, ?_⟩
  · constructor
    · intro h
      cases hrs : rs 0 with
      | error e =>
        rw [get_access_token_sync_error rs e hrs] at h
        simp [tokenTruthy] at h
      | ok r =>
        rw [get_access_token_sync_ok rs r hrs] at h
        by_cases hst : 400 ≤ r.status ∧ r.status < 600
        · rw [if_pos hst] at h
          simp [tokenTruthy] at h
        · rw [if_neg hst] at h
          cases hjson : r.json with
          | none =>
            rw [hjson] at h
            simp [tokenTruthy] at h
          | some kvs =>
            rw [hjson] at h
            simp only [Option.some_bind] at h
            cases hlk : kvs.lookup "access_token" with
            | none =>
              rw [hlk] at h
              simp [tokenTruthy] at h
            | some t =>
              rw [hlk] at h
              simp only [tokenTruthy, Bool.not_eq_eq_eq_not, Bool.not_true,
                beq_eq_false_iff_ne, ne_eq] at h
              exact ⟨r, hrs ▸ rfl, hst, kvs, hjson, t, hlk, h⟩
    · rintro ⟨r, hrs, hst, kvs, hjson, t, hlk, ht⟩
      rw [get_access_token_sync_ok rs r hrs, if_neg hst, hjson]
      simp [tokenTruthy, hlk, ht]
  · intro rs₂ h0
    unfold get_access_token_sync
    rw [h0]
  · intro oracle p nowMs h
    exact submit_token_fail rs oracle p nowMs h

/-- Witness for C7: the fetch depends only on the response to its
single request — two oracles agreeing at index 0 give the same token. -/
theorem claim7_token_fetch_witness :
    get_access_token_sync
        (fun _ => .ok { status := 200, json := some [("access_token", "tok")] }) =
      get_access_token_sync
        (fun n => if n = 0 then
            .ok { status := 200, json := some [("access_token", "tok")] }
          else .error "never issued") :=
  (claim7_token_fetch
    (fun _ => .ok { status := 200, json := some [("access_token", "tok")] })).2.1
    (fun n => if n = 0 then
        .ok { status := 200, json := some [("access_token", "tok")] }
      else .error "never issued") rfl

/-- The attempt loop stops at the first delivered 200 response: if the
responses of all earlier attempts are either transport exceptions or
non-200 statuses, and attempt `i + k` is delivered with status 200,
the loop returns that attempt's success result having issued exactly
the attempts `i, i+1, ..., i+k` in order. -/
theorem medicalAttemptLoop_hit (oracle : Nat → Except String HttpResp)
    (reqId : String) (total : Nat) :
    ∀ (atts : List (List (String × String))) (i k : Nat),
      k < atts.length →
      (∀ j, j < k → ∀ s, oracle (i + j) = .ok s → s.status ≠ 200) →
      ∀ r, oracle (i + k) = .ok r → r.status = 200 →
      medicalAttemptLoop oracle reqId total i atts =
        (some { success := true, status_code := r.status,
                data := some (parseBody r), error := none,
                request_id := reqId, auth_attempt := i + k + 1,
                all_attempts_failed := false, final_error := none },
         List.range' i (k + 1)) := by
  intro atts
  induction atts with
  | nil =>
    intro i k hk
    simp at hk
  | cons hs rest ih =>
    intro i k hk hprev r hr h200
    cases k with
    | zero =>
      rw [Nat.add_zero] at hr
      simp only [medicalAttemptLoop]
      rw [hr]
      simp [h200, List.range'_one]
    | succ k =>
      have hkr : k < rest.length := by
        simp only [List.length_cons] at hk
        omega
      have hrestE : rest.isEmpty = false := by
        cases rest with
        | nil => simp at hkr
        | cons b l => rfl
      have hprev2 : ∀ j, j < k → ∀ s, oracle (i + 1 + j) = .ok s →
          s.status ≠ 200 := by
        intro j hj s hs2
        apply hprev (j + 1) (by omega) s
        have hidx : i + (j + 1) = i + 1 + j := by omega
        rw [hidx]
        exact hs2
      have hr2 : oracle (i + 1 + k) = .ok r := by
        have hidx : i + 1 + k = i + (k + 1) := by omega
        rw [hidx]
        exact hr
      have ihx := ih (i + 1) k hkr hprev2 r hr2 h200
      have harith : i + 1 + k + 1 = i + (k + 1) + 1 := by omega
      simp only [medicalAttemptLoop]
      split
      · next resp hok =>
        have hns : resp.status ≠ 200 := by
          apply hprev 0 (Nat.succ_pos k) resp
          rwa [Nat.add_zero]
        rw [if_neg hns]
        simp only [hrestE, Bool.false_eq_true, if_false, ihx, List.range'_succ]
        rw [harith]
      · next e hok =>
        simp only [hrestE, Bool.false_eq_true, if_false, ihx, List.range'_succ]
        rw [harith]

/-- Claim C1: `async_submit_medical_request` iterates the fixed,
ordered `auth_attempts` header-candidate list in order; when candidate
`i` is the first whose delivered response has status 200, the loop
stops there and returns that response immediately, having issued
exactly the attempts `0, 1, ..., i` — every earlier candidate before a
later one and none after the winner. -/
theorem claim1_first_200_wins (tokenRs : Nat → Except String TokenResp)
    (oracle : Nat → Except String HttpResp) (p : PersonRequest) (nowMs : Nat)
    (t : String) (htok : get_access_token_sync tokenRs = some t) (ht : t ≠ "")
    (i : Nat) (hi : i < 4) (r : HttpResp) (hr : oracle i = .ok r)
    (h200 : r.status = 200)
    (hprev : ∀ j, j < i → ∀ s, oracle j = .ok s → s.status ≠ 200) :
    async_submit_medical_request tokenRs oracle p nowMs =
      (some { success := true, status_code := 200,
              data := some (parseBody r), error := none,
              request_id := generate_request_id nowMs, auth_attempt := i + 1,
              all_attempts_failed := false, final_error := none },
       List.range (i + 1)) := by
  have hlen : i < (auth_attempts t).length := by
    simp [auth_attempts]
    omega
  have hprev0 : ∀ j, j < i → ∀ s, oracle (0 + j) = .ok s → s.status ≠ 200 := by
    intro j hj s hs
    rw [Nat.zero_add] at hs
    exact hprev j hj s hs
  have hr0 : oracle (0 + i) = .ok r := by
    rwa [Nat.zero_add]
  have h := medicalAttemptLoop_hit oracle
    (transform_to_medical_format p nowMs).requestID (auth_attempts t).length
    (auth_attempts t) 0 i hlen hprev0 r hr0 h200
  simp only [async_submit_medical_request, htok]
  rw [if_neg ht]
  simp only [h, h200, List.range_eq_range', Nat.zero_add]
  rfl

/-- Witness for C1: the first candidate is rejected with 403 and the
second is accepted with 200 — exactly attempts 0 and 1 are issued, in
order, and the returned envelope reflects the winning second attempt. -/
theorem claim1_first_200_wins_witness :
    async_submit_medical_request tokenRsOk medOracle sampleJane 7 =
      (some { success := true, status_code := 200,
              data := some (parseBody { status := 200, content := "okbody",
                                        jsonParse := some "okdoc" }),
              error := none, request_id := generate_request_id 7,
              auth_attempt := 2, all_attempts_failed := false,
              final_error := none },
       List.range 2) :=
  claim1_first_200_wins tokenRsOk medOracle sampleJane 7 "tok" (by decide)
    (by decide) 1 (by decide)
    { status := 200, content := "okbody", jsonParse := some "okdoc" } rfl rfl
    (by
      intro j hj s hs
      have hj0 : j = 0 := by omega
      subst hj0
      simp [medOracle] at hs
      subst hs
      decide)

/-- Counterexample to claim C9 as stated: with a healthy token endpoint
and MCID call, a delivered medical response with status 403 makes
`medical_submit` raise, and `call_all` — having no exception handler —
fails as a whole instead of combining per-field results. -/
theorem claim9_counterexample :
    call_all (.ok tokenRespOk) (.ok mcidRespOk) (.ok tokenRespOk)
        (.ok medResp403) =
      .error "Medical request failed: denied" := by
  rfl

/-- Claim C9 (amended): `call_all` returns the combined
`{get_token, mcid_search, medical_submit}` object exactly when all
three sub-calls succeed; the first sub-call exception (transport error,
token failure, non-JSON body, or non-200 medical status) propagates
unhandled and fails the combined operation.  Only a non-200 MCID status
is carried inside a successful envelope rather than raised. -/
theorem claim9_call_all (r1 : Except String TokenResp)
    (r2 : Except String HttpResp) (r3 : Except String TokenResp)
    (r4 : Except String HttpResp) :
    (isOkB (call_all r1 r2 r3 r4) = true ↔
      (isOkB (get_token r1) = true ∧ isOkB (mcid_search r2) = true ∧
       isOkB (medical_submit r3 r4) = true)) ∧
    (∀ t m d, get_token r1 = .ok t → mcid_search r2 = .ok m →
       medical_submit r3 r4 = .ok d →
       call_all r1 r2 r3 r4 =
         .ok { get_token_res := t, mcid_search_res := m,
               medical_submit_res := d }) ∧
    (∀ e, isOkB (get_token r1) = true → isOkB (mcid_search r2) = true →
       medical_submit r3 r4 = .error e →
       call_all r1 r2 r3 r4 = .error e) := by
  cases h1 : get_token r1 with
  | error e1 =>
    simp [call_all, isOkB, h1]
  | ok t0 =>
    cases h2 : mcid_search r2 with
    | error e2 =>
      simp [call_all, isOkB, h1, h2]
    | ok m0 =>
      cases h3 : medical_submit r3 r4 with
      | error e3 =>
        simp [call_all, isOkB, h1, h2, h3]
      | ok d0 =>
        simp [call_all, isOkB, h1, h2, h3]

/-- Witness for C9: when all three sub-calls succeed, `call_all`
combines their results into the single response object. -/
theorem claim9_call_all_witness :
    call_all (.ok tokenRespOk) (.ok mcidRespOk) (.ok tokenRespOk)
        (.ok medRespOk) =
      .ok { get_token_res := some "tok",
            mcid_search_res := { status_code := 200, body := "mdoc" },
            medical_submit_res := { status_code := 200, body := "ddoc" } } :=
  (claim9_call_all (.ok tokenRespOk) (.ok mcidRespOk) (.ok tokenRespOk)
      (.ok medRespOk)).2.1
    (some "tok") { status_code := 200, body := "mdoc" }
    { status_code := 200, body := "ddoc" } rfl rfl rfl

end Milliman
